import Mathlib

/-!
Shallow embedding of `frame/system/src/extensions/check_weight.rs` (the
`CheckWeight` signed extension of this repository) together with the small
amount of surrounding frame-system / frame-support code it calls.

Machine integers: `Weight` is Rust `u64`, block length is `u32`.  The source
only ever uses `saturating_add`, `checked_add` and `saturating_sub` on them,
so we embed them as `Nat` together with explicit saturation / overflow checks
against `2^64 - 1` (resp. `2^32 - 1`); no wrapping arithmetic occurs in the
source.
-/

deriving instance DecidableEq for Except

/-- Largest `u64` value (`Weight` is `u64`). -/
def U64MAX : Nat := 2 ^ 64 - 1

/-- Largest `u32` value (block length counters are `u32`). -/
def U32MAX : Nat := 2 ^ 32 - 1

/-- Rust `u64::saturating_add`. -/
def satAdd (a b : Nat) : Nat := min (a + b) U64MAX

/-- Rust `u64::checked_add`: `none` exactly when the sum overflows. -/
def checkedAdd (a b : Nat) : Option Nat :=
  if a + b ≤ U64MAX then some (a + b) else none

/-- Rust `u32::saturating_add` (used by the block-length accumulator). -/
def satAdd32 (a b : Nat) : Nat := min (a + b) U32MAX

/-- `DispatchClass`: the closed class enumeration from frame-support. -/
inductive DispatchClass where
  | Normal
  | Operational
  | Mandatory
deriving DecidableEq, Repr

/-- The transaction-validity errors that `check_weight.rs` can surface
(`InvalidTransaction::ExhaustsResources`, `::MandatoryDispatch`,
`::BadMandatory`). -/
inductive TxError where
  | ExhaustsResources
  | MandatoryDispatch
  | BadMandatory
deriving DecidableEq, Repr

/-- `DispatchInfo`: the declared class and weight of a candidate extrinsic
(the `pays_fee` field of the Rust struct is never read by `check_weight.rs`
and is omitted). -/
structure DispatchInfo where
  class' : DispatchClass
  weight : Nat
deriving DecidableEq, Repr

/-- `PostDispatchInfo`: the actual post-execution weight (`None` means the
declared weight was consumed in full). -/
structure PostDispatchInfo where
  actual_weight : Option Nat
deriving DecidableEq, Repr

/-- Modelled from the spec: `ConsumedWeight = PerDispatchClass<Weight>`
(declared in `frame/system/src/lib.rs`, which is not under `src/`): one
running weight total per dispatch class; the grand total is derived, not
stored. -/
structure ConsumedWeight where
  normal : Nat
  operational : Nat
  mandatory : Nat
deriving DecidableEq, Repr

/-- Per-class read access (`PerDispatchClass::get`). -/
def ConsumedWeight.get (cw : ConsumedWeight) : DispatchClass → Nat
  | .Normal => cw.normal
  | .Operational => cw.operational
  | .Mandatory => cw.mandatory

/-- Per-class write access (`PerDispatchClass::get_mut` + assignment). -/
def ConsumedWeight.set (cw : ConsumedWeight) (c : DispatchClass) (v : Nat) :
    ConsumedWeight :=
  match c with
  | .Normal => { cw with normal := v }
  | .Operational => { cw with operational := v }
  | .Mandatory => { cw with mandatory := v }

/-- Modelled from the spec: `ConsumedWeight::total`, the derived grand total —
the saturating sum of the three class totals (the spec's invariant
`total() == sum of all three class totals` with saturating arithmetic). -/
def ConsumedWeight.total (cw : ConsumedWeight) : Nat :=
  satAdd (satAdd cw.normal cw.operational) cw.mandatory

/-- Modelled from the spec: `ConsumedWeight::checked_add` — overflow-checked
accrual of `w` onto the class slot of `c`; fails (returns `none`) instead of
wrapping on `u64` overflow. -/
def ConsumedWeight.checkedAccrue (cw : ConsumedWeight) (w : Nat)
    (c : DispatchClass) : Option ConsumedWeight :=
  match checkedAdd (cw.get c) w with
  | some v => some (cw.set c v)
  | none => none

/-- Modelled from the spec: `ConsumedWeight::add` — unconditional (saturating)
accrual of `w` onto the class slot of `c`; the uncapped branch of the
aggregate check uses it, and the source test
`mandatory_extrinsic_doesnt_care_about_limits` pins the saturating behaviour
(`Weight::max_value()` is accepted and the total sticks at the maximum). -/
def ConsumedWeight.accrue (cw : ConsumedWeight) (w : Nat)
    (c : DispatchClass) : ConsumedWeight :=
  cw.set c (satAdd (cw.get c) w)

/-- Modelled from the spec: `ConsumedWeight::sub` — saturating subtraction
from the class slot of `c` (`Nat` subtraction already saturates at 0). -/
def ConsumedWeight.reduce (cw : ConsumedWeight) (w : Nat)
    (c : DispatchClass) : ConsumedWeight :=
  cw.set c (cw.get c - w)

/-- Modelled from the spec: the per-class row of the `BlockWeights`
configuration (`WeightsPerClass` in `frame/system/src/limits.rs`):
fixed per-item overhead, optional per-item cap, optional aggregate class cap
(`none` = class excluded from the aggregate check), optional emergency
reserve. -/
structure WeightsPerClass where
  base_extrinsic : Nat
  max_extrinsic : Option Nat
  max_total : Option Nat
  reserved : Option Nat
deriving DecidableEq, Repr

/-- Modelled from the spec: the `BlockWeights` configuration: one
`WeightsPerClass` row per class plus the global block cap and block base
weight. -/
structure BlockWeights where
  normal : WeightsPerClass
  operational : WeightsPerClass
  mandatory : WeightsPerClass
  max_block : Nat
  base_block : Nat
deriving DecidableEq, Repr

/-- `BlockWeights::get(class)`. -/
def BlockWeights.get (bw : BlockWeights) : DispatchClass → WeightsPerClass
  | .Normal => bw.normal
  | .Operational => bw.operational
  | .Mandatory => bw.mandatory

/-- Modelled from the spec: the `BlockLength` configuration — a per-class
byte cap. -/
structure BlockLength where
  maxNormal : Nat
  maxOperational : Nat
  maxMandatory : Nat
deriving DecidableEq, Repr

/-- `BlockLength.max.get(class)`. -/
def BlockLength.maxFor (bl : BlockLength) : DispatchClass → Nat
  | .Normal => bl.maxNormal
  | .Operational => bl.maxOperational
  | .Mandatory => bl.maxMandatory

/-- The mutable per-block state `check_weight.rs` reads and writes: the
`BlockWeight` storage item (a `ConsumedWeight`) and the `AllExtrinsicsLen`
storage item (a `u32` byte count). -/
structure BlockState where
  weight : ConsumedWeight
  len : Nat
deriving DecidableEq, Repr

/-- `CheckWeight::check_extrinsic_weight`: fails with `ExhaustsResources`
when `max_extrinsic` for the item's class is present and the declared weight
exceeds it.  Mirrors the Rust `match max { Some(max) if info.weight > max =>
Err(..), _ => Ok(()) }`; it reads no mutable state. -/
def check_extrinsic_weight (bw : BlockWeights) (info : DispatchInfo) :
    Except TxError Unit :=
  match (bw.get info.class').max_extrinsic with
  | some m => if info.weight > m then .error .ExhaustsResources else .ok ()
  | none => .ok ()

/-- `CheckWeight::check_block_weight`: the aggregate block-weight check.
Mirrors the Rust control flow line by line: compute
`extrinsic_weight = info.weight.saturating_add(base_extrinsic)`; if
`max_total` is `Some max`, overflow-checked accrual, then the class cap,
then — only when the grand total exceeds `max_block` — the reserve test
(`Some(reserved) if per_class > reserved => Err`, anything else falls
through to `Ok`); if `max_total` is `None`, unconditional saturating
accrual. -/
def check_block_weight (bw : BlockWeights) (info : DispatchInfo)
    (all_weight : ConsumedWeight) : Except TxError ConsumedWeight :=
  let extrinsic_weight := satAdd info.weight (bw.get info.class').base_extrinsic
  match (bw.get info.class').max_total with
  | some max =>
      match all_weight.checkedAccrue extrinsic_weight info.class' with
      | none => .error .ExhaustsResources
      | some next =>
          let per_class := next.get info.class'
          if per_class > max then
            .error .ExhaustsResources
          else if next.total > bw.max_block then
            match (bw.get info.class').reserved with
            | some reserved =>
                if per_class > reserved then .error .ExhaustsResources
                else .ok next
            | none => .ok next
          else .ok next
  | none => .ok (all_weight.accrue extrinsic_weight info.class')

/-- `CheckWeight::check_block_length`: `next_len = current_len.saturating_add
(len as u32)` compared against the per-class byte cap.  The Rust `len as u32`
cast truncates the `usize` argument modulo `2^32`. -/
def check_block_length (bl : BlockLength) (info : DispatchInfo) (len : Nat)
    (current_len : Nat) : Except TxError Nat :=
  let added_len := len % 2 ^ 32
  let next_len := satAdd32 current_len added_len
  if next_len > bl.maxFor info.class' then .error .ExhaustsResources
  else .ok next_len

/-- Modelled from the spec: the priority offset constant
`frame_support::weights::priority::LIMIT` (frame-support is not under
`src/`).  The spec fixes only that it is a large constant strictly above
every Normal priority with headroom left above it; the source test
`signed_ext_check_weight_works` pins `Operational(w) = LIMIT + w`.  We use
three quarters of the `u64` range as the concrete instance. -/
def PRIORITY_LIMIT : Nat := 3 * (2 ^ 64 / 4)

/-- Modelled from the spec: `FrameTransactionPriority::Normal(w).into()` —
priority derived monotonically from the weight but confined to the sub-range
strictly below `PRIORITY_LIMIT`. -/
def framePriorityNormal (w : Nat) : Nat := min w (PRIORITY_LIMIT - 1)

/-- Modelled from the spec: `FrameTransactionPriority::Operational(w).into()`
— priority derived monotonically from the weight, offset by the fixed
constant `PRIORITY_LIMIT` (saturating at the top of the priority space). -/
def framePriorityOperational (w : Nat) : Nat := satAdd PRIORITY_LIMIT w

/-- `CheckWeight::get_priority`: Normal and Operational priorities via the
frame priority wrapper; Mandatory gets `TransactionPriority::min_value()`
(= 0). -/
def get_priority (info : DispatchInfo) : Nat :=
  match info.class' with
  | .Normal => framePriorityNormal info.weight
  | .Operational => framePriorityOperational info.weight
  | .Mandatory => 0

/-- The piece of `ValidTransaction` that `do_validate` computes; all other
fields of the Rust struct are filled with `Default::default()` and never
depend on the input. -/
structure ValidTransaction where
  priority : Nat
deriving DecidableEq, Repr

/-- `CheckWeight::do_pre_dispatch`: the commit phase.  The three checks are
run in sequence (`?`-propagation) and only after all of them succeed are
`next_len` and `next_weight` written back (returned as the new
`BlockState`); an error return means the Rust function performed no storage
write at all. -/
def do_pre_dispatch (bw : BlockWeights) (bl : BlockLength)
    (info : DispatchInfo) (len : Nat) (s : BlockState) :
    Except TxError BlockState := do
  let next_len ← check_block_length bl info len s.len
  let next_weight ← check_block_weight bw info s.weight
  let _ ← check_extrinsic_weight bw info
  .ok ⟨next_weight, next_len⟩

/-- `CheckWeight::do_validate`: the read-only validation phase — length
check (result discarded), per-item weight check, and on success a
`ValidTransaction` carrying the priority.  The Rust function performs no
storage write and never reads the `BlockWeight` storage item; accordingly it
only receives the stored length counter here. -/
def do_validate (bw : BlockWeights) (bl : BlockLength) (info : DispatchInfo)
    (len : Nat) (current_len : Nat) : Except TxError ValidTransaction := do
  let _ ← check_block_length bl info len current_len
  let _ ← check_extrinsic_weight bw info
  .ok ⟨get_priority info⟩

/-- `<CheckWeight as SignedExtension>::pre_dispatch` (the signed entry
point): rejects Mandatory items with `MandatoryDispatch`, then delegates to
`do_pre_dispatch`. -/
def pre_dispatch (bw : BlockWeights) (bl : BlockLength) (info : DispatchInfo)
    (len : Nat) (s : BlockState) : Except TxError BlockState :=
  if info.class' = .Mandatory then .error .MandatoryDispatch
  else do_pre_dispatch bw bl info len s

/-- `<CheckWeight as SignedExtension>::validate` (the signed entry point):
rejects Mandatory items with `MandatoryDispatch`, then delegates to
`do_validate`. -/
def validate (bw : BlockWeights) (bl : BlockLength) (info : DispatchInfo)
    (len : Nat) (current_len : Nat) : Except TxError ValidTransaction :=
  if info.class' = .Mandatory then .error .MandatoryDispatch
  else do_validate bw bl info len current_len

/-- `<CheckWeight as SignedExtension>::pre_dispatch_unsigned`: delegates to
`do_pre_dispatch` directly, with no class check. -/
def pre_dispatch_unsigned (bw : BlockWeights) (bl : BlockLength)
    (info : DispatchInfo) (len : Nat) (s : BlockState) :
    Except TxError BlockState :=
  do_pre_dispatch bw bl info len s

/-- `<CheckWeight as SignedExtension>::validate_unsigned`: delegates to
`do_validate` directly, with no class check. -/
def validate_unsigned (bw : BlockWeights) (bl : BlockLength)
    (info : DispatchInfo) (len : Nat) (current_len : Nat) :
    Except TxError ValidTransaction :=
  do_validate bw bl info len current_len

/-- Modelled from the spec: `PostDispatchInfo::calc_actual_weight`
(frame-support, not under `src/`) — the actual weight capped at the declared
weight; `None` means the declared weight was consumed in full. -/
def calc_actual_weight (post : PostDispatchInfo) (info : DispatchInfo) : Nat :=
  match post.actual_weight with
  | some a => min a info.weight
  | none => info.weight

/-- Modelled from the spec: `PostDispatchInfo::calc_unspent` — declared
weight minus capped actual weight.  The spec's §4.7 wording mentions the
`base_extrinsic` overhead, but the source tests
`signed_ext_check_weight_refund_works` and
`signed_ext_check_weight_actual_weight_higher_than_max_is_capped` pin the
refund to `declared − min(actual, declared)` with no overhead term, so the
tests take precedence. -/
def calc_unspent (post : PostDispatchInfo) (info : DispatchInfo) : Nat :=
  info.weight - calc_actual_weight post info

/-- `<CheckWeight as SignedExtension>::post_dispatch`: reconciliation.
`dispatchFailed` is whether the execution `result` was an `Err`.  A failed
Mandatory item yields `BadMandatory`; otherwise any positive unspent weight
is subtracted from the item's class slot of the stored `ConsumedWeight`. -/
def post_dispatch (info : DispatchInfo) (post : PostDispatchInfo)
    (dispatchFailed : Bool) (s : BlockState) : Except TxError BlockState :=
  if info.class' = .Mandatory ∧ dispatchFailed then .error .BadMandatory
  else
    let unspent := calc_unspent post info
    if unspent > 0 then
      .ok { s with weight := s.weight.reduce unspent info.class' }
    else .ok s

/-- A concrete `BlockWeights` configuration mirroring the source's test mock
(`max_block = 1024`, `base_block = 10`, Normal capped at 75% with
`base_extrinsic = 5`, Mandatory uncapped). -/
def testBW : BlockWeights :=
  { normal := { base_extrinsic := 5, max_extrinsic := some 753,
                max_total := some 768, reserved := none }
    operational := { base_extrinsic := 5, max_extrinsic := some 1019,
                     max_total := some 1024, reserved := some 256 }
    mandatory := { base_extrinsic := 5, max_extrinsic := none,
                   max_total := none, reserved := none }
    max_block := 1024
    base_block := 10 }

/-- A concrete `BlockLength` configuration. -/
def testBL : BlockLength :=
  { maxNormal := 768, maxOperational := 1024, maxMandatory := 1024 }

/-- Block state at the start of a block: only `base_block` (accounted to the
Mandatory class) has been consumed, no bytes used. -/
def s0 : BlockState :=
  { weight := { normal := 0, operational := 0, mandatory := 10 }, len := 0 }

/-- A configuration whose Normal class has a `max_total` but no reserve. -/
def c1bw : BlockWeights :=
  { normal := { base_extrinsic := 5, max_extrinsic := none,
                max_total := some 768, reserved := none }
    operational := { base_extrinsic := 5, max_extrinsic := none,
                     max_total := some 1024, reserved := some 256 }
    mandatory := { base_extrinsic := 5, max_extrinsic := none,
                   max_total := none, reserved := none }
    max_block := 1024
    base_block := 10 }

/-- A consumed-weight snapshot whose grand total (1020) is just below the
1024 block cap of `c1bw`. -/
def c1cw : ConsumedWeight := { normal := 500, operational := 520, mandatory := 0 }

/-- A configuration whose Mandatory class is aggregate-uncapped
(`max_total = none`) but carries a per-item cap (`max_extrinsic = some 5`). -/
def c4bw : BlockWeights :=
  { normal := c1bw.normal
    operational := c1bw.operational
    mandatory := { base_extrinsic := 5, max_extrinsic := some 5,
                   max_total := none, reserved := none }
    max_block := 1024
    base_block := 10 }

/-- A consumed-weight snapshot whose Mandatory slot already sits at the
`u64` maximum. -/
def fullMandatory : ConsumedWeight := { normal := 0, operational := 0, mandatory := U64MAX }

/-- The storage view of the commit phase: the Rust `do_pre_dispatch` writes
`AllExtrinsicsLen` and `BlockWeight` only after all three checks have
passed (`crate::AllExtrinsicsLen::put` / `crate::BlockWeight::put` are the
last statements), so the stored state after a run is the returned state on
success and the untouched input state on failure. -/
def commitState (bw : BlockWeights) (bl : BlockLength) (info : DispatchInfo)
    (len : Nat) (s : BlockState) : BlockState :=
  match do_pre_dispatch bw bl info len s with
  | .ok s' => s'
  | .error _ => s

theorem satAdd_of_le (a b : Nat) (h : a + b ≤ U64MAX) : satAdd a b = a + b := by
  simp [satAdd]; omega

theorem check_block_length_error_eq (bl : BlockLength) (info : DispatchInfo)
    (len current_len : Nat) (e : TxError)
    (h : check_block_length bl info len current_len = .error e) :
    e = .ExhaustsResources := by
  simp only [check_block_length] at h
  split at h
  · injection h with h; exact h.symm
  · cases h

theorem check_extrinsic_weight_error_eq (bw : BlockWeights)
    (info : DispatchInfo) (e : TxError)
    (h : check_extrinsic_weight bw info = .error e) : e = .ExhaustsResources := by
  unfold check_extrinsic_weight at h
  split at h
  · split at h
    · injection h with h; exact h.symm
    · cases h
  · cases h

theorem check_block_weight_error_eq (bw : BlockWeights) (info : DispatchInfo)
    (cw : ConsumedWeight) (e : TxError)
    (h : check_block_weight bw info cw = .error e) : e = .ExhaustsResources := by
  simp only [check_block_weight] at h
  repeat' split at h
  all_goals simp_all

theorem do_pre_dispatch_cases (bw : BlockWeights) (bl : BlockLength)
    (info : DispatchInfo) (len : Nat) (s : BlockState) :
    do_pre_dispatch bw bl info len s =
      match check_block_length bl info len s.len,
            check_block_weight bw info s.weight,
            check_extrinsic_weight bw info with
      | .error e, _, _ => .error e
      | .ok _, .error e, _ => .error e
      | .ok _, .ok _, .error e => .error e
      | .ok nl, .ok nw, .ok _ => .ok ⟨nw, nl⟩ := by
  unfold do_pre_dispatch
  cases check_block_length bl info len s.len <;>
    cases check_block_weight bw info s.weight <;>
      cases check_extrinsic_weight bw info <;> rfl

theorem do_pre_dispatch_error_eq (bw : BlockWeights) (bl : BlockLength)
    (info : DispatchInfo) (len : Nat) (s : BlockState) (e : TxError)
    (h : do_pre_dispatch bw bl info len s = .error e) : e = .ExhaustsResources := by
  rw [do_pre_dispatch_cases] at h
  split at h
  · injection h with h2
    subst h2
    exact check_block_length_error_eq bl info len s.len _ (by assumption)
  · injection h with h2
    subst h2
    exact check_block_weight_error_eq bw info s.weight _ (by assumption)
  · injection h with h2
    subst h2
    exact check_extrinsic_weight_error_eq bw info _ (by assumption)
  · cases h

theorem do_validate_cases (bw : BlockWeights) (bl : BlockLength)
    (info : DispatchInfo) (len current_len : Nat) :
    do_validate bw bl info len current_len =
      match check_block_length bl info len current_len,
            check_extrinsic_weight bw info with
      | .error e, _ => .error e
      | .ok _, .error e => .error e
      | .ok _, .ok _ => .ok ⟨get_priority info⟩ := by
  unfold do_validate
  cases check_block_length bl info len current_len <;>
    cases check_extrinsic_weight bw info <;> rfl

theorem do_validate_error_eq (bw : BlockWeights) (bl : BlockLength)
    (info : DispatchInfo) (len current_len : Nat) (e : TxError)
    (h : do_validate bw bl info len current_len = .error e) :
    e = .ExhaustsResources := by
  rw [do_validate_cases] at h
  split at h
  · injection h with h2
    subst h2
    exact check_block_length_error_eq bl info len current_len _ (by assumption)
  · injection h with h2
    subst h2
    exact check_extrinsic_weight_error_eq bw info _ (by assumption)
  · cases h

theorem U64MAX_eq : U64MAX = 18446744073709551615 := by norm_num [U64MAX]

theorem PRIORITY_LIMIT_eq : PRIORITY_LIMIT = 13835058055282163712 := by
  norm_num [PRIORITY_LIMIT]

/-- C3: the per-item weight check fails with `ExhaustsResources` iff
`max_extrinsic` for the item's class is present and the declared weight
exceeds it, and it succeeds otherwise.  The check is context-free by the very
shape of the source function: it takes no mutable state (it reads neither the
stored `ConsumedWeight` nor the length counter), so its outcome is the same
in any two states. -/
theorem C3_per_item_check (bw : BlockWeights) (info : DispatchInfo) :
    (check_extrinsic_weight bw info = .error .ExhaustsResources ↔
      ∃ m, (bw.get info.class').max_extrinsic = some m ∧ m < info.weight) ∧
    (check_extrinsic_weight bw info = .ok () ↔
      ¬ ∃ m, (bw.get info.class').max_extrinsic = some m ∧ m < info.weight) := by
  unfold check_extrinsic_weight
  rcases hm : (bw.get info.class').max_extrinsic with _ | m
  · simp
  · by_cases hw : info.weight > m
    · simp [hw]
    · simp [hw]

/-- C7: `post_dispatch` returns `BadMandatory` exactly when the item's class
is Mandatory and execution failed; in every other combination it returns
`Ok` (after any refund). -/
theorem C7_bad_mandatory_iff (info : DispatchInfo) (post : PostDispatchInfo)
    (dispatchFailed : Bool) (s : BlockState) :
    (post_dispatch info post dispatchFailed s = .error .BadMandatory ↔
      (info.class' = .Mandatory ∧ dispatchFailed = true)) ∧
    ((∃ s', post_dispatch info post dispatchFailed s = .ok s') ↔
      ¬(info.class' = .Mandatory ∧ dispatchFailed = true)) := by
  by_cases h : info.class' = .Mandatory ∧ dispatchFailed = true
  · simp [post_dispatch, h]
  · by_cases hu : calc_unspent post info > 0
    · simp [post_dispatch, h, hu]
    · simp [post_dispatch, h, hu]

/-- C9: the priority rule is a pure function of `(class, weight)`: every
Operational priority strictly exceeds every Normal priority, Mandatory gets
the minimum priority value (0) for every weight, and priority is monotone in
weight within the Normal and the Operational class. -/
theorem C9_priority_ordering (w1 w2 w w' : Nat) (h : w ≤ w') :
    get_priority ⟨.Operational, w2⟩ > get_priority ⟨.Normal, w1⟩ ∧
    get_priority ⟨.Mandatory, w1⟩ = 0 ∧
    (∀ info : DispatchInfo, get_priority ⟨.Mandatory, w1⟩ ≤ get_priority info) ∧
    get_priority ⟨.Normal, w⟩ ≤ get_priority ⟨.Normal, w'⟩ ∧
    get_priority ⟨.Operational, w⟩ ≤ get_priority ⟨.Operational, w'⟩ := by
  refine ⟨?_, rfl, ?_, ?_, ?_⟩
  · simp only [get_priority, framePriorityNormal, framePriorityOperational,
      satAdd, PRIORITY_LIMIT_eq, U64MAX_eq]
    omega
  · intro info
    simp [get_priority]
  · simp only [get_priority, framePriorityNormal]
    omega
  · simp only [get_priority, framePriorityOperational, satAdd, U64MAX_eq]
    omega

/-- C10: only the signed `validate` / `pre_dispatch` entry points reject
Mandatory items with `MandatoryDispatch`; the unsigned entry points are
definitionally the plain `do_pre_dispatch` / `do_validate` with no class
check, and they can never produce `MandatoryDispatch` (their only error is
`ExhaustsResources`), so a Mandatory item on the unsigned path goes straight
to the ordinary checks. -/
theorem C10_unsigned_path (bw : BlockWeights) (bl : BlockLength)
    (info : DispatchInfo) (len current_len : Nat) (s : BlockState) :
    pre_dispatch_unsigned bw bl info len s = do_pre_dispatch bw bl info len s ∧
    validate_unsigned bw bl info len current_len =
      do_validate bw bl info len current_len ∧
    (info.class' = .Mandatory →
      pre_dispatch bw bl info len s = .error .MandatoryDispatch ∧
      validate bw bl info len current_len = .error .MandatoryDispatch) ∧
    pre_dispatch_unsigned bw bl info len s ≠ .error .MandatoryDispatch ∧
    validate_unsigned bw bl info len current_len ≠ .error .MandatoryDispatch := by
  refine ⟨rfl, rfl, fun hc => ⟨by simp [pre_dispatch, hc], by simp [validate, hc]⟩, ?_, ?_⟩
  · intro h
    exact TxError.noConfusion (do_pre_dispatch_error_eq bw bl info len s _ h)
  · intro h
    exact TxError.noConfusion (do_validate_error_eq bw bl info len current_len _ h)

/-- C9 witness: concrete instances of the class-ordering and monotonicity
facts, obtained from `C9_priority_ordering` at `w1 = 10`, `w2 = 0`,
`w = 1 ≤ w' = 2`. -/
theorem C9_priority_ordering_witness :
    get_priority ⟨.Operational, 0⟩ > get_priority ⟨.Normal, 10⟩ ∧
    get_priority ⟨.Normal, 1⟩ ≤ get_priority ⟨.Normal, 2⟩ :=
  ⟨(C9_priority_ordering 10 0 1 2 (by decide)).1,
   (C9_priority_ordering 10 0 1 2 (by decide)).2.2.2.1⟩

/-- C10 witness: a concrete Mandatory item is rejected with
`MandatoryDispatch` on the signed paths, by `C10_unsigned_path` with the
class hypothesis discharged by `rfl`. -/
theorem C10_unsigned_path_witness :
    pre_dispatch testBW testBL ⟨.Mandatory, 5⟩ 0 s0 = .error .MandatoryDispatch ∧
    validate testBW testBL ⟨.Mandatory, 5⟩ 0 0 = .error .MandatoryDispatch :=
  (C10_unsigned_path testBW testBL ⟨.Mandatory, 5⟩ 0 0 s0).2.2.1 rfl

theorem reduce_zero (cw : ConsumedWeight) (c : DispatchClass) :
    cw.reduce 0 c = cw := by
  cases c <;> rfl

theorem reduce_get_total (cw : ConsumedWeight) (c : DispatchClass) (w : Nat)
    (hslot : w ≤ cw.get c)
    (hsum : cw.normal + cw.operational + cw.mandatory ≤ U64MAX) :
    (cw.reduce w c).get c = cw.get c - w ∧
    cw.total = (cw.reduce w c).total + w := by
  cases c <;>
    simp [ConsumedWeight.reduce, ConsumedWeight.set, ConsumedWeight.get,
      ConsumedWeight.total, satAdd, U64MAX_eq] at hslot hsum ⊢ <;>
    omega

/-- C1 counterexample: in `c1bw` the Normal class has `max_total = some 768`
and `reserved = none`; admitting a Normal item of weight 95 from `c1cw`
(grand total 1020) pushes the grand total to 1120 > `max_block` = 1024 while
the class total 600 stays within 768 — and the aggregate check ADMITS the
item, whereas the claim says it must fail when `reserved` is absent. -/
theorem C1_counterexample :
    (c1bw.get .Normal).max_total = some 768 ∧
    (c1bw.get .Normal).reserved = none ∧
    check_block_weight c1bw ⟨.Normal, 95⟩ c1cw =
      .ok { normal := 600, operational := 520, mandatory := 0 } ∧
    ConsumedWeight.total { normal := 600, operational := 520, mandatory := 0 } = 1120 ∧
    c1bw.max_block = 1024 ∧
    ConsumedWeight.get { normal := 600, operational := 520, mandatory := 0 } .Normal = 600 := by
  decide

/-- C1 (amended): when the class has a `max_total`, the overflow-checked
accrual succeeds with `next`, the new class total respects `max_total`, and
the tentative grand total exceeds `max_block`, the item is rejected with
`ExhaustsResources` iff `reserved(class)` is `Some r` with the new class
total exceeding `r`; when `reserved(class)` is absent (`None`) the item is
ADMITTED despite the block cap being exceeded. -/
theorem C1_reserve_escape_amended (bw : BlockWeights) (info : DispatchInfo)
    (cw next : ConsumedWeight) (max : Nat)
    (hmt : (bw.get info.class').max_total = some max)
    (hacc : cw.checkedAccrue (satAdd info.weight (bw.get info.class').base_extrinsic)
      info.class' = some next)
    (hclass : next.get info.class' ≤ max)
    (hblock : next.total > bw.max_block) :
    (check_block_weight bw info cw = .error .ExhaustsResources ↔
      ∃ r, (bw.get info.class').reserved = some r ∧ r < next.get info.class') ∧
    ((bw.get info.class').reserved = none →
      check_block_weight bw info cw = .ok next) := by
  simp only [check_block_weight, hmt, hacc]
  rw [if_neg (by omega : ¬ next.get info.class' > max), if_pos hblock]
  rcases hr : (bw.get info.class').reserved with _ | r
  · simp
  · by_cases hpc : next.get info.class' > r
    · simp [hpc]
    · simp [hpc]

/-- C1 witness: the amended theorem applied to the concrete configuration
`c1bw` with a `None` reserve: the item is admitted. -/
theorem C1_reserve_escape_amended_witness :
    (c1bw.get .Normal).reserved = none ∧
    check_block_weight c1bw ⟨.Normal, 95⟩ c1cw =
      .ok { normal := 600, operational := 520, mandatory := 0 } :=
  ⟨rfl, (C1_reserve_escape_amended c1bw ⟨.Normal, 95⟩ c1cw
      { normal := 600, operational := 520, mandatory := 0 } 768
      (by decide) (by decide) (by decide) (by decide)).2 rfl⟩

/-- C2: the commit phase is all-or-nothing — if any of the length check, the
aggregate weight check, or the per-item weight check fails, the stored
state is unchanged; if all three succeed, exactly `next_len` and
`next_weight` are persisted. -/
theorem C2_commit_all_or_nothing (bw : BlockWeights) (bl : BlockLength)
    (info : DispatchInfo) (len : Nat) (s : BlockState) :
    (((∃ e, check_block_length bl info len s.len = .error e) ∨
      (∃ e, check_block_weight bw info s.weight = .error e) ∨
      (∃ e, check_extrinsic_weight bw info = .error e)) →
        commitState bw bl info len s = s) ∧
    (∀ nl nw, check_block_length bl info len s.len = .ok nl →
      check_block_weight bw info s.weight = .ok nw →
      check_extrinsic_weight bw info = .ok () →
      commitState bw bl info len s = ⟨nw, nl⟩) := by
  constructor
  · intro h
    unfold commitState
    rw [do_pre_dispatch_cases]
    rcases hbl : check_block_length bl info len s.len with e1 | nl <;>
      rcases hbw : check_block_weight bw info s.weight with e2 | nw <;>
        rcases hew : check_extrinsic_weight bw info with e3 | u <;>
          simp_all
  · intro nl nw hbl hbw hew
    unfold commitState
    rw [do_pre_dispatch_cases, hbl, hbw, hew]

/-- C2 witness: all three checks pass for a Normal item of weight 753 in an
otherwise-fresh block, and exactly the computed totals are persisted. -/
theorem C2_commit_all_or_nothing_witness :
    commitState testBW testBL ⟨.Normal, 753⟩ 0 s0 =
      ⟨{ normal := 758, operational := 0, mandatory := 10 }, 0⟩ :=
  (C2_commit_all_or_nothing testBW testBL ⟨.Normal, 753⟩ 0 s0).2 0
    { normal := 758, operational := 0, mandatory := 10 }
    (by decide) (by decide) (by decide)

/-- C4 counterexample: `c4bw` gives the Mandatory class `max_total = none`
but a per-item cap `max_extrinsic = some 5`; a Mandatory item of weight 10
is then rejected by `do_pre_dispatch` (through the per-item weight check),
whereas the claim says every Mandatory item with `max_total = None` passes
the weight checks regardless of its weight. -/
theorem C4_counterexample :
    (c4bw.get .Mandatory).max_total = none ∧
    do_pre_dispatch c4bw testBL ⟨.Mandatory, 10⟩ 0 s0 =
      .error .ExhaustsResources := by
  decide

/-- C4 (amended): provided `max_extrinsic(Mandatory)` is ALSO `None` (the
per-item check is not bypassed structurally — it is empty only when so
configured), a Mandatory item passes both weight checks for every declared
weight and every state, remains subject to the length check, and on success
its saturated `weight + base_extrinsic` is added to the Mandatory slot of
`ConsumedWeight`. -/
theorem C4_mandatory_bypass_amended (bw : BlockWeights) (bl : BlockLength)
    (w len : Nat) (s : BlockState)
    (hmt : (bw.get .Mandatory).max_total = none)
    (hme : (bw.get .Mandatory).max_extrinsic = none) :
    check_extrinsic_weight bw ⟨.Mandatory, w⟩ = .ok () ∧
    check_block_weight bw ⟨.Mandatory, w⟩ s.weight =
      .ok (s.weight.accrue (satAdd w (bw.get .Mandatory).base_extrinsic) .Mandatory) ∧
    (∀ nl, check_block_length bl ⟨.Mandatory, w⟩ len s.len = .ok nl →
      do_pre_dispatch bw bl ⟨.Mandatory, w⟩ len s =
        .ok ⟨s.weight.accrue (satAdd w (bw.get .Mandatory).base_extrinsic) .Mandatory, nl⟩) ∧
    (∀ e, check_block_length bl ⟨.Mandatory, w⟩ len s.len = .error e →
      do_pre_dispatch bw bl ⟨.Mandatory, w⟩ len s = .error e) := by
  have h1 : check_extrinsic_weight bw ⟨.Mandatory, w⟩ = .ok () := by
    simp [check_extrinsic_weight, hme]
  have h2 : check_block_weight bw ⟨.Mandatory, w⟩ s.weight =
      .ok (s.weight.accrue (satAdd w (bw.get .Mandatory).base_extrinsic) .Mandatory) := by
    simp [check_block_weight, hmt]
  refine ⟨h1, h2, ?_, ?_⟩
  · intro nl hbl
    rw [do_pre_dispatch_cases, hbl, h2, h1]
  · intro e hbl
    rw [do_pre_dispatch_cases, hbl]

/-- C4 witness: in `testBW` (Mandatory uncapped in both senses) even a
Mandatory item of the maximal `u64` weight is admitted by the commit phase,
and the Mandatory slot saturates at the `u64` maximum. -/
theorem C4_mandatory_bypass_amended_witness :
    (testBW.get .Mandatory).max_total = none ∧
    (testBW.get .Mandatory).max_extrinsic = none ∧
    do_pre_dispatch testBW testBL ⟨.Mandatory, U64MAX⟩ 0 s0 =
      .ok ⟨{ normal := 0, operational := 0, mandatory := U64MAX }, 0⟩ :=
  ⟨rfl, rfl, by
    have h := (C4_mandatory_bypass_amended testBW testBL U64MAX 0 s0 rfl rfl).2.2.1
      0 (by decide)
    have h2 : s0.weight.accrue (satAdd U64MAX (testBW.get .Mandatory).base_extrinsic)
        .Mandatory = { normal := 0, operational := 0, mandatory := U64MAX } := by decide
    rw [h2] at h
    exact h⟩

/-- C5 counterexample: the Mandatory slot of `fullMandatory` is already at
the `u64` maximum, so adding the extrinsic weight would overflow — yet in
the `max_total = none` branch `check_block_weight` succeeds and silently
saturates (the returned state equals the input state), whereas the claim
says every overflowing admission fails with `ExhaustsResources` in every
branch including the no-`max_total` one. -/
theorem C5_counterexample :
    (testBW.get .Mandatory).max_total = none ∧
    fullMandatory.get .Mandatory + satAdd 1 (testBW.get .Mandatory).base_extrinsic
      > U64MAX ∧
    check_block_weight testBW ⟨.Mandatory, 1⟩ fullMandatory = .ok fullMandatory := by
  decide

/-- C5 (amended): overflow is surfaced as `ExhaustsResources` only in the
capped branch — when `max_total(class)` is present and adding the extrinsic
weight to the class total would exceed the `u64` range, the aggregate check
fails; in the no-`max_total` branch (and in the computation of
`extrinsic_weight` itself, which uses `saturating_add`) arithmetic
saturates silently and the check always succeeds. -/
theorem C5_overflow_amended (bw : BlockWeights) (info : DispatchInfo)
    (cw : ConsumedWeight) :
    (∀ max, (bw.get info.class').max_total = some max →
      cw.get info.class' + satAdd info.weight (bw.get info.class').base_extrinsic
        > U64MAX →
      check_block_weight bw info cw = .error .ExhaustsResources) ∧
    ((bw.get info.class').max_total = none →
      check_block_weight bw info cw =
        .ok (cw.accrue (satAdd info.weight (bw.get info.class').base_extrinsic)
          info.class')) := by
  constructor
  · intro max hmt hov
    have hacc : cw.checkedAccrue
        (satAdd info.weight (bw.get info.class').base_extrinsic) info.class' = none := by
      unfold ConsumedWeight.checkedAccrue checkedAdd
      rw [if_neg (by omega)]
    simp only [check_block_weight, hmt, hacc]
  · intro hmt
    simp only [check_block_weight, hmt]

/-- C5 witness: a Normal item whose accrual would overflow the `u64` class
slot is rejected, and an uncapped Mandatory accrual always succeeds. -/
theorem C5_overflow_amended_witness :
    check_block_weight testBW ⟨.Normal, 1⟩
      { normal := U64MAX, operational := 0, mandatory := 0 } =
      .error .ExhaustsResources ∧
    check_block_weight testBW ⟨.Mandatory, 3⟩ s0.weight =
      .ok (s0.weight.accrue
        (satAdd 3 (testBW.get .Mandatory).base_extrinsic) .Mandatory) :=
  ⟨(C5_overflow_amended testBW ⟨.Normal, 1⟩
      { normal := U64MAX, operational := 0, mandatory := 0 }).1 768
      (by decide) (by decide),
   (C5_overflow_amended testBW ⟨.Mandatory, 3⟩ s0.weight).2 rfl⟩

/-- C6 counterexample: with `base_extrinsic = 5`, an admitted Normal item of
declared weight `W = 10` and actual weight `A = 4` (so `A ≤ W +
base_extrinsic`) has its class and grand total reduced by `W − A = 6`, not
by `(W + base_extrinsic) − A = 11` as the claim states: `calc_unspent` never
includes the overhead. -/
theorem C6_counterexample :
    (testBW.get .Normal).base_extrinsic = 5 ∧
    post_dispatch ⟨.Normal, 10⟩ ⟨some 4⟩ false
        ⟨{ normal := 100, operational := 0, mandatory := 0 }, 0⟩ =
      .ok ⟨{ normal := 94, operational := 0, mandatory := 0 }, 0⟩ ∧
    ConsumedWeight.total { normal := 100, operational := 0, mandatory := 0 } -
      ConsumedWeight.total { normal := 94, operational := 0, mandatory := 0 } = 6 ∧
    4 ≤ 10 + 5 ∧ 10 + 5 - 4 = 11 ∧ (6 : Nat) ≠ 11 := by
  decide

/-- C6 (amended): reconciliation refunds exactly the unspent DECLARED
weight, with no overhead term: for a non-(failed Mandatory) item of declared
weight `W` and actual weight `A`, `post_dispatch` subtracts `W − A` from the
item's class slot (and hence from the derived grand total) when `A ≤ W`, and
performs no reduction when `A ≥ W` (the refund is never negative: the actual
weight is capped at the declared weight). -/
theorem C6_refund_amended (info : DispatchInfo) (post : PostDispatchInfo)
    (dispatchFailed : Bool) (s : BlockState) (A : Nat)
    (hnm : ¬(info.class' = .Mandatory ∧ dispatchFailed = true))
    (ha : post.actual_weight = some A)
    (hslot : info.weight - A ≤ s.weight.get info.class')
    (hsum : s.weight.normal + s.weight.operational + s.weight.mandatory ≤ U64MAX) :
    post_dispatch info post dispatchFailed s =
      .ok ⟨s.weight.reduce (info.weight - A) info.class', s.len⟩ ∧
    (s.weight.reduce (info.weight - A) info.class').get info.class' =
      s.weight.get info.class' - (info.weight - A) ∧
    s.weight.total =
      (s.weight.reduce (info.weight - A) info.class').total + (info.weight - A) ∧
    (info.weight ≤ A → s.weight.reduce (info.weight - A) info.class' = s.weight) := by
  have hu : calc_unspent post info = info.weight - A := by
    simp only [calc_unspent, calc_actual_weight, ha]
    omega
  have hred := reduce_get_total s.weight info.class' (info.weight - A) hslot hsum
  refine ⟨?_, hred.1, hred.2, ?_⟩
  · unfold post_dispatch
    rw [if_neg hnm]
    by_cases h0 : 0 < calc_unspent post info
    · rw [if_pos h0, hu]
    · rw [if_neg h0]
      have hz : info.weight - A = 0 := by omega
      rw [hz, reduce_zero]
  · intro hWA
    have hz : info.weight - A = 0 := by omega
    rw [hz, reduce_zero]

/-- C6 witness: the amended theorem at `W = 10`, `A = 4`: the Normal slot
drops from 100 to 94 — a refund of exactly `W − A = 6`. -/
theorem C6_refund_amended_witness :
    post_dispatch ⟨.Normal, 10⟩ ⟨some 4⟩ false
        ⟨{ normal := 100, operational := 0, mandatory := 0 }, 0⟩ =
      .ok ⟨ConsumedWeight.reduce { normal := 100, operational := 0, mandatory := 0 }
        (10 - 4) .Normal, 0⟩ :=
  (C6_refund_amended ⟨.Normal, 10⟩ ⟨some 4⟩ false
      ⟨{ normal := 100, operational := 0, mandatory := 0 }, 0⟩ 4
      (by decide) rfl (by decide) (by decide)).1

/-- C8: the validation phase is read-only and independent of the consumed
weight: `do_validate` performs no storage write (it is a pure function of
the configuration, the candidate and the stored length counter — the Rust
function never calls `put` and never reads the `BlockWeight` storage item),
two states with equal length counters give identical results whatever their
`ConsumedWeight`, and on success the returned value carries exactly the
priority computed by `get_priority` for `(class, weight)`. -/
theorem C8_validate_read_only (bw : BlockWeights) (bl : BlockLength)
    (info : DispatchInfo) (len : Nat) (s1 s2 : BlockState)
    (h : s1.len = s2.len) :
    do_validate bw bl info len s1.len = do_validate bw bl info len s2.len ∧
    (∀ v, do_validate bw bl info len s1.len = .ok v → v = ⟨get_priority info⟩) := by
  constructor
  · rw [h]
  · intro v hv
    rw [do_validate_cases] at hv
    split at hv
    · cases hv
    · cases hv
    · injection hv with hv
      exact hv.symm

/-- C8 witness: two states with the same length counter but maximally
different consumed weights validate identically, and the returned priority
for a Normal item of weight 100 is 100. -/
theorem C8_validate_read_only_witness :
    do_validate testBW testBL ⟨.Normal, 100⟩ 0 s0.len =
      do_validate testBW testBL ⟨.Normal, 100⟩ 0
        (BlockState.mk { normal := 999, operational := 999, mandatory := 999 } 0).len ∧
    ({ priority := 100 } : ValidTransaction) = ⟨get_priority ⟨.Normal, 100⟩⟩ :=
  ⟨(C8_validate_read_only testBW testBL ⟨.Normal, 100⟩ 0 s0
      ⟨{ normal := 999, operational := 999, mandatory := 999 }, 0⟩ rfl).1,
   (C8_validate_read_only testBW testBL ⟨.Normal, 100⟩ 0 s0
      ⟨{ normal := 999, operational := 999, mandatory := 999 }, 0⟩ rfl).2
     ⟨100⟩ (by decide)⟩
